import Mathlib

/-!
Shallow embedding of `burnman/eos/property_modifiers.py`: the five excess
functions (`_landau_excesses`, `_landau_hp_excesses`, `_dqf_excesses`,
`_bragg_williams_excesses`, `_magnetic_excesses_chs`), the compositor
`_modify_properties` and the dispatcher `apply_property_modifiers`.
Python floats are modelled as real numbers; the parameter dictionary is a
record holding every key any modifier reads; the mutable mineral object is
a record that the compositor maps functionally, assigning exactly the
attributes the Python code assigns and copying the rest.
-/

noncomputable section

/-- Modelled from the spec: the global gas constant imported from the
`burnman.constants` module, which is not among the source files; the spec
describes it as a compile-time constant configuration value. -/
def gas_constant : ℝ := 8.31446

/-- A parameter dictionary: one field for every key read by any of the five
excess functions (`params['...']` lookups in the Python source). The
two-element arrays `curie_temperature` and `magnetic_moment` become pairs. -/
structure ParamsDict where
  Tc_0 : ℝ := 0
  S_D : ℝ := 0
  V_D : ℝ := 0
  H : ℝ := 0
  S : ℝ := 0
  V : ℝ := 0
  n : ℝ := 0
  factor : ℝ := 0
  deltaH : ℝ := 0
  deltaV : ℝ := 0
  Wh : ℝ := 0
  Wv : ℝ := 0
  structural_parameter : ℝ := 0
  curie_temperature : ℝ × ℝ := (0, 0)
  magnetic_moment : ℝ × ℝ := (0, 0)

/-- The six-field excess record returned by every excess function
(the `excesses` dictionary in the Python source). -/
@[ext] structure Excesses where
  G : ℝ
  dGdT : ℝ
  dGdP : ℝ
  d2GdT2 : ℝ
  d2GdP2 : ℝ
  d2GdPdT : ℝ

/-- The all-zero excess record. -/
def zeroExcesses : Excesses :=
  { G := 0, dGdT := 0, dGdP := 0, d2GdT2 := 0, d2GdP2 := 0, d2GdPdT := 0 }

/-- The mutable mineral state: current pressure and temperature, the derived
thermodynamic properties assigned by `_modify_properties`, the attached
modifier list `mineral.property_modifiers`, and the two base-parameter keys
`mineral.params['P_0']`, `mineral.params['T_0']` read by the dispatcher. -/
@[ext] structure Mineral where
  pressure : ℝ
  temperature : ℝ
  gibbs : ℝ
  S : ℝ
  V : ℝ
  C_p : ℝ
  K_T : ℝ
  alpha : ℝ
  H : ℝ
  helmholtz : ℝ
  C_v : ℝ
  gr : ℝ
  K_S : ℝ
  propertyModifiers : List (String × ParamsDict)
  P_0 : ℝ
  T_0 : ℝ

/-- The pressure-dependent critical temperature
`Tc = params['Tc_0'] + params['V_D']*pressure/params['S_D']`
computed at the top of `_landau_excesses`. -/
def landau_Tc (pressure : ℝ) (params : ParamsDict) : ℝ :=
  params.Tc_0 + params.V_D * pressure / params.S_D

/-- The `G` expression of the `temperature < Tc` branch of `_landau_excesses`
(line 48 of the source), as a standalone function of the same inputs. -/
def landau_below_G (pressure temperature : ℝ) (params : ParamsDict) : ℝ :=
  let Tc := landau_Tc pressure params
  let G_disordered := params.S_D * ((temperature - Tc) + params.Tc_0 / 3)
  let Q2 := Real.sqrt (1 - temperature / Tc)
  params.S_D * ((temperature - Tc) * Q2 + params.Tc_0 * Q2 * Q2 * Q2 / 3) - G_disordered

/-- The `dGdP` expression of the `temperature < Tc` branch of
`_landau_excesses` (line 49 of the source). -/
def landau_below_dGdP (pressure temperature : ℝ) (params : ParamsDict) : ℝ :=
  let Tc := landau_Tc pressure params
  let dGdP_disordered := -params.V_D
  let Q2 := Real.sqrt (1 - temperature / Tc)
  let r := -params.V_D * Q2 * (1 + 0.5 * temperature / Tc * (1 - params.Tc_0 / Tc))
           - dGdP_disordered
  r

/-- The `dGdT` expression of the `temperature < Tc` branch of
`_landau_excesses` (line 50 of the source). -/
def landau_below_dGdT (pressure temperature : ℝ) (params : ParamsDict) : ℝ :=
  let Tc := landau_Tc pressure params
  let dGdT_disordered := params.S_D
  params.S_D * Real.sqrt (1 - temperature / Tc) * (1.5 - 0.5 * params.Tc_0 / Tc) - dGdT_disordered

/-- Embedding of `_landau_excesses(pressure, temperature, params)`:
the tricritical Landau correction relative to the ordered state. -/
def landauExcesses (pressure temperature : ℝ) (params : ParamsDict) : Excesses :=
  let Tc := landau_Tc pressure params
  let G_disordered := params.S_D * ((temperature - Tc) + params.Tc_0 / 3)
  let dGdT_disordered := params.S_D
  let dGdP_disordered := -params.V_D
  if temperature < Tc then
    let Q2 := Real.sqrt (1 - temperature / Tc)
    { G := params.S_D * ((temperature - Tc) * Q2 + params.Tc_0 * Q2 * Q2 * Q2 / 3) - G_disordered
      dGdP := -params.V_D * Q2 * (1 + 0.5 * temperature / Tc * (1 - params.Tc_0 / Tc))
              - dGdP_disordered
      dGdT := params.S_D * Q2 * (1.5 - 0.5 * params.Tc_0 / Tc) - dGdT_disordered
      d2GdP2 := params.V_D * params.V_D * temperature / (params.S_D * Tc * Tc * Q2)
                * (temperature * (1 + params.Tc_0 / Tc) / (4 * Tc)
                   + Q2 * Q2 * (1 - params.Tc_0 / Tc) - 1)
      d2GdT2 := -params.S_D / (Tc * Q2) * (0.75 - 0.25 * params.Tc_0 / Tc)
      d2GdPdT := params.V_D / (2 * Tc * Q2)
                 * (1 + (temperature / (2 * Tc) - Q2 * Q2) * (1 - params.Tc_0 / Tc)) }
  else
    { G := -G_disordered
      dGdT := -dGdT_disordered
      dGdP := -dGdP_disordered
      d2GdT2 := 0
      d2GdP2 := 0
      d2GdPdT := 0 }

/-- The reference order parameter `Q_0` of `_landau_hp_excesses`:
`((Tc_0 - T_0)/Tc_0)**0.25` when `T_0 < Tc_0`, else `0`. -/
def landauHp_Q_0 (T_0 : ℝ) (params : ParamsDict) : ℝ :=
  if T_0 < params.Tc_0 then ((params.Tc_0 - T_0) / params.Tc_0) ^ (0.25 : ℝ) else 0

/-- The shifted critical temperature
`Tc = Tc_0 + V_D*(P - P_0)/S_D` of `_landau_hp_excesses`. -/
def landauHp_Tc (P P_0 : ℝ) (params : ParamsDict) : ℝ :=
  params.Tc_0 + params.V_D * (P - P_0) / params.S_D

/-- The current order parameter `Q` of `_landau_hp_excesses`:
`((Tc - T)/Tc_0)**0.25` when `T < Tc`, else `0`. -/
def landauHp_Q (P T P_0 : ℝ) (params : ParamsDict) : ℝ :=
  if T < landauHp_Tc P P_0 params
  then ((landauHp_Tc P P_0 params - T) / params.Tc_0) ^ (0.25 : ℝ) else 0

/-- Embedding of `_landau_hp_excesses(pressure, temperature, P_0, T_0, params)`:
the Holland-Powell Landau correction relative to the standard state. The
single Python `if Q > 1.e-12` guarding the three second derivatives becomes
one conditional per field with the same condition. -/
def landauHpExcesses (pressure temperature P_0 T_0 : ℝ) (params : ParamsDict) : Excesses :=
  let P := pressure
  let T := temperature
  let Q_0 := landauHp_Q_0 T_0 params
  let Tc := landauHp_Tc P P_0 params
  let Q := landauHp_Q P T P_0 params
  { G := params.Tc_0 * params.S_D * (Q_0 * Q_0 - Q_0 ^ (6 : ℝ) / 3)
         - params.S_D * (Tc * Q * Q - params.Tc_0 * Q ^ (6 : ℝ) / 3)
         - T * params.S_D * (Q_0 * Q_0 - Q * Q) + (P - P_0) * params.V_D * Q_0 * Q_0
    dGdT := params.S_D * (Q * Q - Q_0 * Q_0)
    dGdP := -params.V_D * (Q * Q - Q_0 * Q_0)
    d2GdT2 := if Q > 1e-12 then -params.S_D / (2 * params.Tc_0 * Q * Q) else 0
    d2GdP2 := if Q > 1e-12
              then -params.V_D * params.V_D / (2 * params.S_D * params.Tc_0 * Q * Q) else 0
    d2GdPdT := if Q > 1e-12 then params.V_D / (2 * params.Tc_0 * Q * Q) else 0 }

/-- Embedding of `_bragg_williams_excesses(pressure, temperature, params)`.
The call `opt.fsolve(reaction_bragg_williams, 0.999995, args=(gibbs_disorder,
temperature, n, f, W))[0]` to the external scipy root-finder is abstracted
as a `solver` argument mapping the residual's extra arguments
`(gibbs_disorder, temperature, n, f, W)` to the returned order parameter;
everything downstream of that call is embedded as written, including the
nine root-find evaluations and the finite-difference derivative stencils. -/
def braggWilliamsExcesses (solver : ℝ → ℝ → ℝ → ℝ → ℝ → ℝ)
    (pressure temperature : ℝ) (params : ParamsDict) : Excesses :=
  let R := gas_constant
  let n := params.n
  let f := params.factor
  let deltaS := gas_constant * ((1 + n) * Real.log (1 + n) - n * Real.log n)
  let lnxord := fun (n Q : ℝ) =>
    Real.log (1 + n * Q) + n * Real.log (n + Q) - (1 + n) * Real.log (1 + n)
  let lnxdisord := fun (n Q : ℝ) =>
    (1 / (1 + n)) * Real.log (1 + n * Q) + (n / (1 + n)) * Real.log (1 - Q)
    + (n / (1 + n)) * Real.log (n * (1 - Q)) + (n * n / (1 + n)) * Real.log (n + Q)
    - n * Real.log n
  let order_gibbs := fun (pressure temperature : ℝ) =>
    let W := params.Wh + pressure * params.Wv
    let gibbs_disorder := params.deltaH - f * temperature * deltaS + pressure * params.deltaV
    let Q := solver gibbs_disorder temperature n f W
    let G := (1 - Q) * (gibbs_disorder + f * R * temperature * lnxdisord n Q)
             + f * Q * (R * temperature * lnxord n Q) + (1 - Q) * Q * W
    (Q, G)
  let dT := (1 : ℝ)
  let dP := (1000 : ℝ)
  let G := (order_gibbs pressure temperature).2
  let GsubPsubT := (order_gibbs (pressure - dP) (temperature - dT)).2
  let GsubPaddT := (order_gibbs (pressure - dP) (temperature + dT)).2
  let GaddPsubT := (order_gibbs (pressure + dP) (temperature - dT)).2
  let GaddPaddT := (order_gibbs (pressure + dP) (temperature + dT)).2
  let GsubP := (order_gibbs (pressure - dP) temperature).2
  let GaddP := (order_gibbs (pressure + dP) temperature).2
  let GsubT := (order_gibbs pressure (temperature - dT)).2
  let GaddT := (order_gibbs pressure (temperature + dT)).2
  { G := G
    dGdT := (GaddT - GsubT) / (2 * dT)
    dGdP := (GaddP - GsubP) / (2 * dP)
    d2GdT2 := (GaddT + GsubT - 2 * G) / (dT * dT)
    d2GdP2 := (GaddP + GsubP - 2 * G) / (dP * dP)
    d2GdPdT := (GaddPaddT - GsubPaddT - GaddPsubT + GsubPsubT) / (4 * dT * dP) }

/-- Embedding of `_magnetic_excesses_chs(pressure, temperature, params)`:
the Chin-Hertzman-Sundman magnetic contribution. -/
def magneticExcessesChs (pressure temperature : ℝ) (params : ParamsDict) : Excesses :=
  let structural_parameter := params.structural_parameter
  let curie_temperature := params.curie_temperature.1 + pressure * params.curie_temperature.2
  let tau := temperature / curie_temperature
  let dtaudT := 1 / curie_temperature
  let dtaudP := -(temperature * params.curie_temperature.2)
                / (curie_temperature * curie_temperature)
  let d2taudPdT := params.curie_temperature.2 / (curie_temperature * curie_temperature)
  let d2taudP2 := 2 * temperature * params.curie_temperature.2 * params.curie_temperature.2
                  / (curie_temperature * curie_temperature * curie_temperature)
  let magnetic_moment := params.magnetic_moment.1 + pressure * params.magnetic_moment.2
  let dmagnetic_momentdP := params.magnetic_moment.2
  let A := (518 / 1125 : ℝ) + (11692 / 15975 : ℝ) * ((1 / structural_parameter) - 1)
  let f := if tau < 1 then
      1 - (1 / A) * (79 / (140 * structural_parameter * tau)
        + (474 / 497 : ℝ) * (1 / structural_parameter - 1)
          * (tau ^ (3 : ℝ) / 6 + tau ^ (9 : ℝ) / 135 + tau ^ (15 : ℝ) / 600))
    else
      -(1 / A) * (tau ^ (-5 : ℝ) / 10 + tau ^ (-15 : ℝ) / 315 + tau ^ (-25 : ℝ) / 1500)
  let dfdtau := if tau < 1 then
      -(1 / A) * (-79 / (140 * structural_parameter * tau * tau)
        + (474 / 497 : ℝ) * (1 / structural_parameter - 1)
          * (tau * tau / 2 + tau ^ (8 : ℝ) / 15 + tau ^ (14 : ℝ) / 40))
    else
      (1 / A) * (tau ^ (-6 : ℝ) / 2 + tau ^ (-16 : ℝ) / 21 + tau ^ (-26 : ℝ) / 60)
  let d2fdtau2 := if tau < 1 then
      -(1 / A) * (2 * 79 / (140 * structural_parameter * tau ^ (3 : ℝ))
        + (474 / 497 : ℝ) * (1 / structural_parameter - 1)
          * (tau + 8 * tau ^ (7 : ℝ) / 15 + 14 * tau ^ (13 : ℝ) / 40))
    else
      -(1 / A) * (6 * tau ^ (-7 : ℝ) / 2 + 16 * tau ^ (-17 : ℝ) / 21
                  + 26 * tau ^ (-27 : ℝ) / 60)
  let dfdT := dfdtau * dtaudT
  let d2fdT2 := d2fdtau2 * dtaudT * dtaudT
  let dfdP := dfdtau * dtaudP
  let d2fdP2 := d2fdtau2 * dtaudP * dtaudP + dfdtau * d2taudP2
  let d2fdPdT := d2fdtau2 * dtaudT * dtaudP - dfdtau * d2taudPdT
  let dGdP := gas_constant * temperature * (f * dmagnetic_momentdP / (magnetic_moment + 1)
              + dfdP * Real.log (magnetic_moment + 1))
  { G := gas_constant * temperature * Real.log (magnetic_moment + 1) * f
    dGdT := gas_constant * Real.log (magnetic_moment + 1) * (f + temperature * dfdT)
    d2GdT2 := gas_constant * Real.log (magnetic_moment + 1) * (2 * dfdT + temperature * d2fdT2)
    dGdP := dGdP
    d2GdP2 := gas_constant * temperature
              * (-f * (dmagnetic_momentdP / (magnetic_moment + 1)) ^ (2 : ℝ)
                 + 2 * dfdP * dmagnetic_momentdP / (magnetic_moment + 1)
                 + d2fdP2 * Real.log (magnetic_moment + 1))
    d2GdPdT := dGdP / temperature
               + gas_constant * temperature * Real.log (magnetic_moment + 1) * d2fdPdT
               + gas_constant * temperature * dmagnetic_momentdP / (magnetic_moment + 1)
                 * dfdT }

/-- Embedding of `_dqf_excesses(pressure, temperature, params)`. -/
def dqfExcesses (pressure temperature : ℝ) (params : ParamsDict) : Excesses :=
  { G := params.H - temperature * params.S + pressure * params.V
    dGdT := -params.S
    dGdP := params.V
    d2GdT2 := 0
    d2GdP2 := 0
    d2GdPdT := 0 }

/-- Embedding of `_modify_properties(mineral, excesses)`: the Python function
mutates the mineral attribute by attribute in a fixed order, each assignment
reading the values current at that moment; the embedding chains the same
assignments through let-bindings and returns the final state. Attributes the
Python code never assigns (pressure, temperature, the modifier list, P_0,
T_0) are copied unchanged. -/
def modifyProperties (mineral : Mineral) (excesses : Excesses) : Mineral :=
  let gibbs := mineral.gibbs + excesses.G
  let C_p := mineral.C_p - mineral.temperature * excesses.d2GdT2
  let K_T := -(mineral.V + excesses.dGdP) / (excesses.d2GdP2 - mineral.V / mineral.K_T)
  let alpha := (mineral.alpha * mineral.V + excesses.d2GdPdT) / (mineral.V + excesses.dGdP)
  let S := mineral.S - excesses.dGdT
  let V := mineral.V + excesses.dGdP
  let H := gibbs + mineral.temperature * S
  let helmholtz := gibbs - mineral.pressure * V
  let C_v := C_p - V * mineral.temperature * alpha * alpha * K_T
  let gr := alpha * K_T * V / C_v
  let K_S := K_T * C_p / C_v
  { pressure := mineral.pressure
    temperature := mineral.temperature
    gibbs := gibbs
    S := S
    V := V
    C_p := C_p
    K_T := K_T
    alpha := alpha
    H := H
    helmholtz := helmholtz
    C_v := C_v
    gr := gr
    K_S := K_S
    propertyModifiers := mineral.propertyModifiers
    P_0 := mineral.P_0
    T_0 := mineral.T_0 }

/-- Embedding of the body of the `for modifier in mineral.property_modifiers`
loop of `apply_property_modifiers`: five successive `if` tests on the kind
tag (plain `if`s in the source, not `elif`; the five tags are distinct
strings so at most one fires), each feeding `_modify_properties` with the
matching excess function. An entry whose tag matches none of the five tests
falls through every `if` and leaves the mineral untouched. -/
def applyModifier (solver : ℝ → ℝ → ℝ → ℝ → ℝ → ℝ)
    (mineral : Mineral) (modifier : String × ParamsDict) : Mineral :=
  let m1 := if modifier.1 = "landau"
    then modifyProperties mineral
      (landauExcesses mineral.pressure mineral.temperature modifier.2)
    else mineral
  let m2 := if modifier.1 = "landau_hp"
    then modifyProperties m1
      (landauHpExcesses m1.pressure m1.temperature m1.P_0 m1.T_0 modifier.2)
    else m1
  let m3 := if modifier.1 = "dqf"
    then modifyProperties m2 (dqfExcesses m2.pressure m2.temperature modifier.2)
    else m2
  let m4 := if modifier.1 = "bragg_williams"
    then modifyProperties m3
      (braggWilliamsExcesses solver m3.pressure m3.temperature modifier.2)
    else m3
  let m5 := if modifier.1 = "magnetic_chs"
    then modifyProperties m4 (magneticExcessesChs m4.pressure m4.temperature modifier.2)
    else m4
  m5

/-- Embedding of `apply_property_modifiers(mineral)`: fold the loop body over
the mineral's attached modifier list, in list order. The `solver` argument
abstracts the external scipy root-finder used by the Bragg-Williams branch. -/
def applyPropertyModifiers (solver : ℝ → ℝ → ℝ → ℝ → ℝ → ℝ) (mineral : Mineral) : Mineral :=
  mineral.propertyModifiers.foldl (applyModifier solver) mineral

/-- A concrete stand-in solver (constant zero), used to instantiate closed
statements about the dispatcher on modifier lists that never reach the
Bragg-Williams branch, where the solver's value is irrelevant. -/
def trivialSolver : ℝ → ℝ → ℝ → ℝ → ℝ → ℝ := fun _ _ _ _ _ => 0

/-- Claim C6: for every pressure, temperature and parameter set,
`_dqf_excesses` returns exactly `G = H - T*S + P*V`, `dGdT = -S`,
`dGdP = V`, and vanishing second derivatives; in particular `G` is exactly
affine in `P` and `T` and the function has no branches. -/
theorem C6_dqf_formulas (pressure temperature : ℝ) (params : ParamsDict) :
    (dqfExcesses pressure temperature params).G
      = params.H - temperature * params.S + pressure * params.V ∧
    (dqfExcesses pressure temperature params).dGdT = -params.S ∧
    (dqfExcesses pressure temperature params).dGdP = params.V ∧
    (dqfExcesses pressure temperature params).d2GdT2 = 0 ∧
    (dqfExcesses pressure temperature params).d2GdP2 = 0 ∧
    (dqfExcesses pressure temperature params).d2GdPdT = 0 :=
  ⟨rfl, rfl, rfl, rfl, rfl, rfl⟩

/-- Claim C4: after every call of the compositor `_modify_properties`, the
resulting mineral state satisfies the five thermodynamic identities
`H = G + T*S`, `helmholtz = G - P*V`, `C_v = C_p - V*T*alpha^2*K_T`,
`K_S = K_T*C_p/C_v` and `gr = alpha*K_T*V/C_v`, for any excess record and
any starting state. -/
theorem C4_identities (mineral : Mineral) (excesses : Excesses) :
    (modifyProperties mineral excesses).H
      = (modifyProperties mineral excesses).gibbs
        + (modifyProperties mineral excesses).temperature
          * (modifyProperties mineral excesses).S ∧
    (modifyProperties mineral excesses).helmholtz
      = (modifyProperties mineral excesses).gibbs
        - (modifyProperties mineral excesses).pressure
          * (modifyProperties mineral excesses).V ∧
    (modifyProperties mineral excesses).C_v
      = (modifyProperties mineral excesses).C_p
        - (modifyProperties mineral excesses).V
          * (modifyProperties mineral excesses).temperature
          * (modifyProperties mineral excesses).alpha ^ 2
          * (modifyProperties mineral excesses).K_T ∧
    (modifyProperties mineral excesses).K_S
      = (modifyProperties mineral excesses).K_T
        * (modifyProperties mineral excesses).C_p
        / (modifyProperties mineral excesses).C_v ∧
    (modifyProperties mineral excesses).gr
      = (modifyProperties mineral excesses).alpha
        * (modifyProperties mineral excesses).K_T
        * (modifyProperties mineral excesses).V
        / (modifyProperties mineral excesses).C_v := by
  refine ⟨?_, ?_, ?_, ?_, ?_⟩ <;> (simp only [modifyProperties]; try ring)

/-- Claim C10: `_modify_properties` assigns only the derived-property
attributes of the mineral; the pressure, temperature, attached modifier
list and the base parameters `P_0`, `T_0` are read but never modified (and
the excess record, an input, is not mutated in this functional embedding). -/
theorem C10_frame (mineral : Mineral) (excesses : Excesses) :
    (modifyProperties mineral excesses).pressure = mineral.pressure ∧
    (modifyProperties mineral excesses).temperature = mineral.temperature ∧
    (modifyProperties mineral excesses).propertyModifiers = mineral.propertyModifiers ∧
    (modifyProperties mineral excesses).P_0 = mineral.P_0 ∧
    (modifyProperties mineral excesses).T_0 = mineral.T_0 :=
  ⟨rfl, rfl, rfl, rfl, rfl⟩

/-- Claim C5: for every mineral state whose fields satisfy the thermodynamic
identities of the data model (and with nonzero `V`, `K_T`, `C_v`), applying
`_modify_properties` with the all-zero excess record leaves every field of
the state unchanged (identity law). -/
theorem C5_zero_identity (m : Mineral)
    (hH : m.H = m.gibbs + m.temperature * m.S)
    (hhelm : m.helmholtz = m.gibbs - m.pressure * m.V)
    (hCv : m.C_v = m.C_p - m.V * m.temperature * m.alpha ^ 2 * m.K_T)
    (hgr : m.gr = m.alpha * m.K_T * m.V / m.C_v)
    (hKS : m.K_S = m.K_T * m.C_p / m.C_v)
    (hV : m.V ≠ 0) (hKT : m.K_T ≠ 0) (hCv0 : m.C_v ≠ 0) :
    modifyProperties m zeroExcesses = m := by
  have hA : m.alpha * m.V / m.V = m.alpha := mul_div_cancel_right₀ m.alpha hV
  have hK2 : -m.V / -(m.V / m.K_T) = m.K_T := by
    rw [neg_div_neg_eq]
    field_simp
  refine Mineral.ext ?_ ?_ ?_ ?_ ?_ ?_ ?_ ?_ ?_ ?_ ?_ ?_ ?_ ?_ ?_ ?_ <;>
    simp only [modifyProperties, zeroExcesses, add_zero, sub_zero, mul_zero, zero_sub]
  · exact hK2
  · exact hA
  · rw [hH]
  · rw [hhelm]
  · rw [hA, hK2, hCv]
    ring
  · rw [hA, hK2, hgr, hCv]
    ring
  · rw [hA, hK2, hKS, hCv]
    ring

/-- A concrete mineral state satisfying all the thermodynamic identities of
the data model, with nonzero volume, bulk modulus and isochoric heat
capacity, used to instantiate the identity law. -/
def mC5 : Mineral :=
  { pressure := 2, temperature := 3, gibbs := 5, S := 7, V := 11, C_p := 13,
    K_T := 17, alpha := 0, H := 26, helmholtz := -17, C_v := 13, gr := 0,
    K_S := 17, propertyModifiers := [], P_0 := 0, T_0 := 0 }

/-- Witness for claim C5 at a concrete state satisfying the identities. -/
theorem C5_zero_identity_witness : modifyProperties mC5 zeroExcesses = mC5 :=
  C5_zero_identity mC5 (by norm_num [mC5]) (by norm_num [mC5]) (by norm_num [mC5])
    (by norm_num [mC5]) (by norm_num [mC5]) (by norm_num [mC5]) (by norm_num [mC5])
    (by norm_num [mC5])

/-- Claim C7: in `_landau_hp_excesses`, whenever `T_0 >= Tc_0` the reference
order parameter `Q_0` is exactly `0`; and whenever the current order
parameter `Q` is below the `1e-12` threshold, the returned `d2GdT2`,
`d2GdP2` and `d2GdPdT` are exactly `0` instead of the closed-form
expressions that divide by `Q^2`. -/
theorem C7_landau_hp_guards (P T P_0 T_0 : ℝ) (params : ParamsDict) :
    (T_0 ≥ params.Tc_0 → landauHp_Q_0 T_0 params = 0) ∧
    (landauHp_Q P T P_0 params < 1e-12 →
      (landauHpExcesses P T P_0 T_0 params).d2GdT2 = 0 ∧
      (landauHpExcesses P T P_0 T_0 params).d2GdP2 = 0 ∧
      (landauHpExcesses P T P_0 T_0 params).d2GdPdT = 0) := by
  constructor
  · intro h
    rw [landauHp_Q_0, if_neg (not_lt.mpr h)]
  · intro h
    have h' : ¬ (landauHp_Q P T P_0 params > 1e-12) := not_lt.mpr h.le
    refine ⟨?_, ?_, ?_⟩ <;> (simp only [landauHpExcesses]; rw [if_neg h'])

/-- A concrete Landau parameter set with `Tc_0 = 1`, used to instantiate the
Holland-Powell guard conditions. -/
def pC7 : ParamsDict := { Tc_0 := 1, S_D := 1, V_D := 0 }

/-- Witness for claim C7 at `T_0 = 2 >= Tc_0 = 1` and a state `T = 5 >= Tc`
where the order parameter is `0 < 1e-12`. -/
theorem C7_landau_hp_guards_witness :
    landauHp_Q_0 2 pC7 = 0 ∧
    ((landauHpExcesses 0 5 0 2 pC7).d2GdT2 = 0 ∧
     (landauHpExcesses 0 5 0 2 pC7).d2GdP2 = 0 ∧
     (landauHpExcesses 0 5 0 2 pC7).d2GdPdT = 0) :=
  ⟨(C7_landau_hp_guards 0 5 0 2 pC7).1 (by norm_num [pC7]),
   (C7_landau_hp_guards 0 5 0 2 pC7).2 (by norm_num [landauHp_Q, landauHp_Tc, pC7])⟩

/-- Claim C8: for the tricritical Landau correction `_landau_excesses`, at
temperature exactly equal to the critical temperature
`Tc = Tc_0 + V_D*P/S_D` (with `Tc` nonzero so that `T/Tc` is defined), the
`G`, `dGdT` and `dGdP` formulas of the `T < Tc` branch, evaluated with
`Q2 = sqrt(1 - T/Tc) = 0`, equal the values returned by the `T >= Tc`
branch: the Gibbs excess and its first derivatives are continuous across
the transition. -/
theorem C8_landau_continuity (P T : ℝ) (params : ParamsDict)
    (hTc : landau_Tc P params ≠ 0) (hT : T = landau_Tc P params) :
    landau_below_G P T params = (landauExcesses P T params).G ∧
    landau_below_dGdT P T params = (landauExcesses P T params).dGdT ∧
    landau_below_dGdP P T params = (landauExcesses P T params).dGdP := by
  have hQ2 : Real.sqrt (1 - T / landau_Tc P params) = 0 := by
    rw [hT, div_self hTc]
    norm_num
  have hnlt : ¬ (T < landau_Tc P params) := by
    rw [hT]
    exact lt_irrefl _
  refine ⟨?_, ?_, ?_⟩ <;>
    (simp only [landauExcesses, landau_below_G, landau_below_dGdT, landau_below_dGdP, hQ2]
     rw [if_neg hnlt]
     ring)

/-- A concrete Landau parameter set with `Tc_0 = 2`, `S_D = 1`, `V_D = 0`,
so that the critical temperature is `2` at every pressure. -/
def pC8 : ParamsDict := { Tc_0 := 2, S_D := 1, V_D := 0 }

/-- Witness for claim C8 at `P = 3`, `T = 2 = Tc`. -/
theorem C8_landau_continuity_witness :
    landau_below_G 3 2 pC8 = (landauExcesses 3 2 pC8).G ∧
    landau_below_dGdT 3 2 pC8 = (landauExcesses 3 2 pC8).dGdT ∧
    landau_below_dGdP 3 2 pC8 = (landauExcesses 3 2 pC8).dGdP :=
  C8_landau_continuity 3 2 pC8 (by norm_num [landau_Tc, pC8])
    (by norm_num [landau_Tc, pC8])

/-- Claim C9: when both coefficients of the `magnetic_moment` parameter are
zero, so that the pressure-dependent magnetic moment vanishes at every
pressure, `_magnetic_excesses_chs` returns a Gibbs excess and all five
derivative fields exactly equal to zero for every pressure and temperature,
since `ln(0+1) = 0` and the moment's pressure derivative is `0`. -/
theorem C9_magnetic_zero_moment (P T : ℝ) (params : ParamsDict)
    (h1 : params.magnetic_moment.1 = 0) (h2 : params.magnetic_moment.2 = 0) :
    magneticExcessesChs P T params = zeroExcesses := by
  refine Excesses.ext ?_ ?_ ?_ ?_ ?_ ?_ <;>
    simp [magneticExcessesChs, zeroExcesses, h1, h2,
          Real.zero_rpow (two_ne_zero (α := ℝ))]

/-- A concrete magnetic parameter set with zero magnetic moment. -/
def pC9 : ParamsDict :=
  { structural_parameter := 1, curie_temperature := (1, 0), magnetic_moment := (0, 0) }

/-- Witness for claim C9 at `P = 2`, `T = 3` with zero magnetic moment. -/
theorem C9_magnetic_zero_moment_witness : magneticExcessesChs 2 3 pC9 = zeroExcesses :=
  C9_magnetic_zero_moment 2 3 pC9 (by norm_num [pC9]) (by norm_num [pC9])

/-- The DQF parameter set `{H: 0, S: 1.0, V: 1e-6}` of the end-to-end
scenario. -/
def pC1 : ParamsDict := { H := 0, S := 1, V := 1e-6 }

/-- The mineral of the end-to-end scenario: base state `G = -100`,
`S = 10`, `V = 1e-5`, `C_p = 100`, `K_T = 2e11`, `alpha = 2e-5` at
`P = 1e9` Pa and `T = 1000` K, with the single attached modifier
`('dqf', {H: 0, S: 1.0, V: 1e-6})`. The remaining derived fields are
overwritten by the compositor, so their starting values are immaterial. -/
def mC1 : Mineral :=
  { pressure := 1e9, temperature := 1000, gibbs := -100, S := 10, V := 1e-5,
    C_p := 100, K_T := 2e11, alpha := 2e-5, H := 0, helmholtz := 0, C_v := 0,
    gr := 0, K_S := 0, propertyModifiers := [("dqf", pC1)], P_0 := 0, T_0 := 0 }

/-- Counterexample to claim C1 as stated: after `apply_property_modifiers`,
the entropy of the scenario mineral is not `9.0` (the compositor computes
`S_new = S_old - dGdT = 10 - (-1) = 11`, not `10 - 1 = 9`). -/
theorem C1_counterexample : (applyPropertyModifiers trivialSolver mC1).S ≠ 9 := by
  simp [applyPropertyModifiers, applyModifier, modifyProperties, dqfExcesses, mC1, pC1]
  norm_num

/-- Claim C1 (amended): running `apply_property_modifiers` on the scenario
mineral leaves `G = -100`, `V = 1.1e-5`, and entropy `S = 11` (the DQF
excess `dGdT = -S_mod = -1` is subtracted from the entropy, so the modifier
entropy parameter is added, not subtracted). The result is independent of
the solver stand-in since the DQF branch never calls it. -/
theorem C1_amended_end_to_end (solver : ℝ → ℝ → ℝ → ℝ → ℝ → ℝ) :
    (applyPropertyModifiers solver mC1).gibbs = -100 ∧
    (applyPropertyModifiers solver mC1).S = 11 ∧
    (applyPropertyModifiers solver mC1).V = 1.1e-5 := by
  refine ⟨?_, ?_, ?_⟩ <;>
    (simp [applyPropertyModifiers, applyModifier, modifyProperties, dqfExcesses, mC1, pC1]
     try norm_num)

/-- A mineral carrying a single modifier entry with the unknown kind tag
`"spin"`; all state fields are set to `1` so that any mutation would be
visible. -/
def mC2 : Mineral :=
  { pressure := 1, temperature := 1, gibbs := 1, S := 1, V := 1, C_p := 1,
    K_T := 1, alpha := 1, H := 1, helmholtz := 1, C_v := 1, gr := 1, K_S := 1,
    propertyModifiers := [("spin", {})], P_0 := 0, T_0 := 0 }

/-- Counterexample to claim C2 as stated: on a mineral whose single modifier
entry has the unknown kind tag `"spin"`, `apply_property_modifiers` returns
normally with the state completely unchanged — the entry is skipped
silently, and no configuration error is reported (the dispatch loop consists
of five plain `if` tests with no `else` clause). -/
theorem C2_counterexample : applyPropertyModifiers trivialSolver mC2 = mC2 := by
  simp [applyPropertyModifiers, applyModifier, mC2]

/-- Claim C2 (amended): every modifier list entry whose kind tag is not one
of {landau, landau_hp, dqf, bragg_williams, magnetic_chs} is skipped
silently by the dispatch loop of `apply_property_modifiers`: the loop body
leaves the mineral state unchanged for that entry and reports no error. -/
theorem C2_amended_unknown_skipped (solver : ℝ → ℝ → ℝ → ℝ → ℝ → ℝ)
    (m : Mineral) (tag : String) (p : ParamsDict)
    (h1 : tag ≠ "landau") (h2 : tag ≠ "landau_hp") (h3 : tag ≠ "dqf")
    (h4 : tag ≠ "bragg_williams") (h5 : tag ≠ "magnetic_chs") :
    applyModifier solver m (tag, p) = m := by
  simp [applyModifier, h1, h2, h3, h4, h5]

/-- Witness for the amended claim C2 at the concrete unknown tag `"spin"`. -/
theorem C2_amended_unknown_skipped_witness :
    applyModifier trivialSolver mC2 ("spin", {}) = mC2 :=
  C2_amended_unknown_skipped trivialSolver mC2 "spin" {} (by decide) (by decide)
    (by decide) (by decide) (by decide)

end
